import Mathlib

/-!
Verification of the Jailhouse x86 CPU-virtualization core (vmx.c) and the
VT-d IOMMU manager (vtd.c) against its natural-language specification.

The C sources are embedded shallowly: hardware registers and guest state
become explicit record fields, machine instructions whose outcome depends on
hardware (vmxon, vmclear, vmptrld, the long vmwrite sequence of vmcs_setup)
become boolean oracle fields, and external collaborators (the page-table
walker, the page allocator, the APIC model, the cell manager) become oracle
functions or emitted events.  Machine integers are modelled as Nat with
explicit reduction modulo 2^64 where the C code can overflow.

Numeric constants that live in architecture headers not present in the
source tree (vmx.h, vtd.h, apic.h, hypercall.h) are modelled from the spec
and the Intel architecture they describe; the theorems below never depend
on their exact values, only on the structure of the embedded code.
-/

/-! ## Constants from the architecture headers -/

/-- Linux error numbers used by the code (errno.h, not in the source tree). -/
def EPERM_v : Int := 1
def ENOMEM_v : Int := 12
def EBUSY_v : Int := 16
def ENODEV_v : Int := 19
def ERANGE_v : Int := 34
def ENOSYS_v : Int := 38
def EIO_v : Int := 5

/-- Modelled from the spec: hypercall function codes of hypercall.h
(disable, cell create, cell destroy), missing from src. -/
def JAILHOUSE_HC_DISABLE : Nat := 0
def JAILHOUSE_HC_CELL_CREATE : Nat := 1
def JAILHOUSE_HC_CELL_DESTROY : Nat := 2

/-- Length in bytes of the VMCALL instruction (vmx.h). -/
def X86_INST_LEN_VMCALL : Nat := 3

def EFER_LMA : Nat := 2 ^ 10
def EFER_LME : Nat := 2 ^ 8
def X86_RFLAGS_VM : Nat := 2 ^ 17
def X86_CR4_VMXE : Nat := 2 ^ 13
def X86_FEATURE_VMX : Nat := 2 ^ 5
def X86_XCR0_FP : Nat := 1
def PAGE_SIZE : Nat := 4096

/-- Two-complement encoding of a signed status into an unsigned 64-bit
register, as the C assignment of a negative int to u64 rax performs. -/
def u64ofInt (i : Int) : Nat := (i % (2 ^ 64 : Int)).toNat

/-! ## Guest register and virtual-CPU state (struct registers + VMCS fields) -/

/-- The saved general-purpose registers the exit handlers touch
(struct registers; only the registers the embedded code reads or
writes are carried). -/
structure GuestRegs where
  rax : Nat
  rbx : Nat
  rcx : Nat
  rdx : Nat
  rsi : Nat
  rdi : Nat
  deriving Repr, DecidableEq

/-- The per-exit guest state visible to the hypercall handler: saved
registers plus the VMCS guest fields it reads and writes, plus the
hypervisor-wide state (cells, EPT, IOMMU tables) reachable through
shutdown / cell_create / cell_destroy, abstracted as `world`. -/
structure VcpuState where
  regs : GuestRegs
  guest_rip : Nat
  efer : Nat
  rflags : Nat
  cs_selector : Nat
  world : Nat
  deactivated : Bool
  deriving Repr, DecidableEq

/-- Modelled from the spec: shutdown, cell_create and cell_destroy live in
control.c which is missing from src.  Each returns a status and may mutate
the hypervisor/cell state (`world`); none of them writes the calling CPU
guest RIP or the other fields of the calling vCPU. -/
structure HcOracle where
  shutdown : Nat → Int × Nat
  cell_create : Nat → Nat → Int × Nat
  cell_destroy : Nat → Nat → Int × Nat

/-- vmx_skip_emulated_instruction: GUEST_RIP += inst_len (64-bit VMCS write). -/
def vmx_skip_emulated_instruction (inst_len : Nat) (s : VcpuState) : VcpuState :=
  { s with guest_rip := (s.guest_rip + inst_len) % 2 ^ 64 }

/-- vmx_handle_hypercall: skip the VMCALL instruction, reject callers that
are in virtual-8086 mode or not at privilege level 0, then dispatch on the
function code in rax. -/
def vmx_handle_hypercall (o : HcOracle) (s : VcpuState) : VcpuState :=
  let s := vmx_skip_emulated_instruction X86_INST_LEN_VMCALL s
  if (s.efer &&& EFER_LMA = 0 ∧ s.rflags &&& X86_RFLAGS_VM ≠ 0) ∨
      s.cs_selector &&& 3 ≠ 0 then
    { s with regs := { s.regs with rax := u64ofInt (-EPERM_v) } }
  else if s.regs.rax = JAILHOUSE_HC_DISABLE then
    let r := o.shutdown s.world
    let s := { s with regs := { s.regs with rax := u64ofInt r.1 }, world := r.2 }
    if r.1 = 0 then { s with deactivated := true } else s
  else if s.regs.rax = JAILHOUSE_HC_CELL_CREATE then
    let r := o.cell_create s.regs.rdi s.world
    { s with regs := { s.regs with rax := u64ofInt r.1 }, world := r.2 }
  else if s.regs.rax = JAILHOUSE_HC_CELL_DESTROY then
    let r := o.cell_destroy s.regs.rdi s.world
    { s with regs := { s.regs with rax := u64ofInt r.1 }, world := r.2 }
  else
    { s with regs := { s.regs with rax := u64ofInt (-ENOSYS_v) } }

/-! ## vmx_cell_exit: I/O-bitmap restore loop (C5)

In the VMX I/O bitmaps a SET bit means the port traps (inaccessible to the
guest), a CLEAR bit means direct access.  vmx_cell_exit walks the live root
(Linux) cell bitmap over the first min(cell size, root size) bytes and
performs  *b &= *pio_bitmap | *linux_pio_bitmap.  Bitmaps are embedded as
total byte functions (the underlying C arrays are fixed-size buffers). -/

/-- The I/O-bitmap restore loop of vmx_cell_exit.  `linux_live` is the live
bitmap of the root cell, `cell_cfg` the configured bitmap of the exiting
cell, `linux_cfg` the configured bitmap of the root cell. -/
def vmx_cell_exit_io_bitmap (linux_live cell_cfg linux_cfg : Nat → Nat)
    (cell_size linux_size : Nat) : Nat → Nat :=
  let n := if linux_size < cell_size then linux_size else cell_size
  fun i => if i < n then linux_live i &&& (cell_cfg i ||| linux_cfg i)
           else linux_live i

/-- A port is accessible under a bitmap when its trap bit is clear. -/
def ioPortAccessible (bitmap : Nat → Nat) (port : Nat) : Prop :=
  (bitmap (port / 8)).testBit (port % 8) = false

/-! ## Per-CPU VMX enablement (vmx_cpu_init / vmx_cpu_exit) -/

/-- The three-state per-CPU virtualization-enablement state (percpu.h). -/
inductive VmxState where
  | VMXOFF
  | VMXON
  | VMCS_READY
  deriving Repr, DecidableEq

/-- The per-CPU fields vmx_cpu_init and vmx_cpu_exit touch: the enablement
state, the CR4 control register of this CPU, and the revision-id words of
the two control-structure regions. -/
structure PerCpuVmx where
  vmx_state : VmxState
  cr4 : Nat
  vmxon_region_rev : Nat
  vmcs_rev : Nat
  deriving Repr, DecidableEq

/-- Hardware oracle for vmx_cpu_init: CPUID leaves, MSR file, and the
outcome of the vmxon / vmclear / vmptrld instructions and of the whole
vmwrite sequence of vmcs_setup (each vmwrite outcome is hardware-decided;
the conjunction of the setup writes is carried as one bit). -/
structure VmxHw where
  cpuid_ecx1 : Nat
  read_msr : Nat → Nat
  vmxon_ok : Bool
  vmcs_clear_ok : Bool
  vmcs_load_ok : Bool
  vmcs_setup_ok : Bool

/-- MSR indices (vmx.h / Intel SDM). -/
def MSR_IA32_FEATURE_CONTROL : Nat := 0x3a
def MSR_IA32_VMX_BASIC : Nat := 0x480
def MSR_IA32_VMX_PINBASED_CTLS : Nat := 0x481
def MSR_IA32_VMX_PROCBASED_CTLS : Nat := 0x482
def MSR_IA32_VMX_MISC : Nat := 0x485
def MSR_IA32_VMX_PROCBASED_CTLS2 : Nat := 0x48b
def MSR_IA32_VMX_EPT_VPID_CAP : Nat := 0x48c
def MSR_IA32_VMX_TRUE_PINBASED_CTLS : Nat := 0x48d

/-- Control bits (vmx.h / Intel SDM). -/
def PIN_BASED_NMI_EXITING : Nat := 2 ^ 3
def PIN_BASED_VMX_PREEMPTION_TIMER : Nat := 2 ^ 6
def CPU_BASED_USE_IO_BITMAPS : Nat := 2 ^ 25
def CPU_BASED_USE_MSR_BITMAPS : Nat := 2 ^ 28
def CPU_BASED_ACTIVATE_SECONDARY_CONTROLS : Nat := 2 ^ 31
def SECONDARY_EXEC_VIRTUALIZE_APIC_ACCESSES : Nat := 1
def SECONDARY_EXEC_ENABLE_EPT : Nat := 2
def SECONDARY_EXEC_UNRESTRICTED_GUEST : Nat := 2 ^ 7
def EPT_TYPE_WRITEBACK : Nat := 6
def EPT_MANDATORY_FEATURES : Nat := 2 ^ 6 ||| 2 ^ 14
def EPT_INVEPT_SINGLE : Nat := 2 ^ 25
def EPT_INVEPT_GLOBAL : Nat := 2 ^ 26
def VMX_MISC_ACTIVITY_HLT : Nat := 2 ^ 6
def FEATURE_CONTROL_LOCKED : Nat := 1
def FEATURE_CONTROL_VMXON_ENABLED_OUTSIDE_SMX : Nat := 4

/-- The global vmx_true_msr_offs the C code computes from bit 55 of the
basic capability MSR: the offset from the default to the TRUE control
MSRs. -/
def vmx_true_msr_offs (hw : VmxHw) : Nat :=
  if (hw.read_msr MSR_IA32_VMX_BASIC).testBit 55 then
    MSR_IA32_VMX_TRUE_PINBASED_CTLS - MSR_IA32_VMX_PINBASED_CTLS
  else 0

/-- Result of vmx_cpu_init: the returned status, the mutated per-CPU state,
and the list of assignments to the enablement state, each recorded as
(value before, value assigned). -/
structure VmxInitResult where
  ret : Int
  cpu : PerCpuVmx
  trans : List (VmxState × VmxState)
  deriving Repr, DecidableEq

/-- The capability-check section of vmx_cpu_init, in the order the C code
performs the checks: some error to return early, none when every required
capability is present. -/
def vmx_cap_error (hw : VmxHw) : Option Int :=
  let vmx_basic := hw.read_msr MSR_IA32_VMX_BASIC
  if (vmx_basic >>> 32) &&& 0x1fff > PAGE_SIZE then some (-EIO_v)
  else if (vmx_basic >>> 50) &&& 0xf ≠ EPT_TYPE_WRITEBACK then some (-EIO_v)
  else
  let offs := vmx_true_msr_offs hw
  let vmx_pin_ctrl := hw.read_msr (MSR_IA32_VMX_PINBASED_CTLS + offs) >>> 32
  if vmx_pin_ctrl &&& PIN_BASED_NMI_EXITING = 0 ∨
     vmx_pin_ctrl &&& PIN_BASED_VMX_PREEMPTION_TIMER = 0 then some (-EIO_v)
  else
  let vmx_proc_ctrl := hw.read_msr (MSR_IA32_VMX_PROCBASED_CTLS + offs) >>> 32
  if vmx_proc_ctrl &&& CPU_BASED_USE_IO_BITMAPS = 0 ∨
     vmx_proc_ctrl &&& CPU_BASED_USE_MSR_BITMAPS = 0 ∨
     vmx_proc_ctrl &&& CPU_BASED_ACTIVATE_SECONDARY_CONTROLS = 0 then
    some (-EIO_v)
  else
  let vmx_proc_ctrl2 := hw.read_msr MSR_IA32_VMX_PROCBASED_CTLS2 >>> 32
  let ept_cap := hw.read_msr MSR_IA32_VMX_EPT_VPID_CAP
  if vmx_proc_ctrl2 &&& SECONDARY_EXEC_VIRTUALIZE_APIC_ACCESSES = 0 ∨
     vmx_proc_ctrl2 &&& SECONDARY_EXEC_ENABLE_EPT = 0 ∨
     ept_cap &&& EPT_MANDATORY_FEATURES ≠ EPT_MANDATORY_FEATURES ∨
     ept_cap &&& (EPT_INVEPT_SINGLE ||| EPT_INVEPT_GLOBAL) = 0 ∨
     vmx_proc_ctrl2 &&& SECONDARY_EXEC_UNRESTRICTED_GUEST = 0 then
    some (-EIO_v)
  else if hw.read_msr MSR_IA32_VMX_MISC &&& VMX_MISC_ACTIVITY_HLT = 0 then
    some (-EIO_v)
  else none

/-- vmx_cpu_init: capability validation, feature-control MSR check, CR4.VMXE
enable, VMXON, then VMCS clear + load + full field setup.  Mirrors the check
order of the C code; every early return carries the per-CPU state as mutated
so far. -/
def vmx_cpu_init (hw : VmxHw) (c : PerCpuVmx) : VmxInitResult :=
  if hw.cpuid_ecx1 &&& X86_FEATURE_VMX = 0 then ⟨-ENODEV_v, c, []⟩
  else
  let cr4 := c.cr4
  if cr4 &&& X86_CR4_VMXE ≠ 0 then ⟨-EBUSY_v, c, []⟩
  else match vmx_cap_error hw with
  | some e => ⟨e, c, []⟩
  | none =>
  let revision_id := hw.read_msr MSR_IA32_VMX_BASIC % 2 ^ 32
  let c := { c with vmxon_region_rev := revision_id, vmcs_rev := revision_id }
  let feature_ctrl := hw.read_msr MSR_IA32_FEATURE_CONTROL
  let mask := FEATURE_CONTROL_LOCKED ||| FEATURE_CONTROL_VMXON_ENABLED_OUTSIDE_SMX
  if feature_ctrl &&& mask ≠ mask ∧ feature_ctrl &&& FEATURE_CONTROL_LOCKED ≠ 0 then
    ⟨-ENODEV_v, c, []⟩
  else
  let c := { c with cr4 := cr4 ||| X86_CR4_VMXE }
  if ¬hw.vmxon_ok then ⟨-EIO_v, { c with cr4 := cr4 }, []⟩
  else
  let t0 := (c.vmx_state, VmxState.VMXON)
  let c := { c with vmx_state := VmxState.VMXON }
  if ¬hw.vmcs_clear_ok ∨ ¬hw.vmcs_load_ok ∨ ¬hw.vmcs_setup_ok then
    ⟨-EIO_v, c, [t0]⟩
  else
    ⟨0, { c with vmx_state := VmxState.VMCS_READY },
     [t0, (VmxState.VMXON, VmxState.VMCS_READY)]⟩

/-- Mask clearing X86_CR4_VMXE from a 64-bit CR4 value (bitwise complement
of the bit within 64 bits). -/
def CR4_VMXE_CLEAR : Nat := 2 ^ 64 - 1 - X86_CR4_VMXE

/-- vmx_cpu_exit: idempotent teardown.  If the state is already VMXOFF the
call returns immediately; otherwise it sets the state to VMXOFF, clears the
control structure, executes vmxoff and clears CR4.VMXE.  Returns the new
state and the recorded enablement-state assignments. -/
def vmx_cpu_exit (c : PerCpuVmx) : PerCpuVmx × List (VmxState × VmxState) :=
  if c.vmx_state = VmxState.VMXOFF then (c, [])
  else
    ({ c with vmx_state := VmxState.VMXOFF, cr4 := c.cr4 &&& CR4_VMXE_CLEAR },
     [(c.vmx_state, VmxState.VMXOFF)])

/-- One call in a lifecycle sequence: either vmx_cpu_init against a given
hardware oracle, or vmx_cpu_exit. -/
inductive VmxOp where
  | init (hw : VmxHw)
  | exit

def vmx_step : VmxOp → PerCpuVmx → PerCpuVmx × List (VmxState × VmxState)
  | VmxOp.init hw, c => let r := vmx_cpu_init hw c; (r.cpu, r.trans)
  | VmxOp.exit, c => vmx_cpu_exit c

/-- Run a sequence of vmx_cpu_init / vmx_cpu_exit calls, accumulating every
assignment to the enablement state. -/
def vmx_run : List VmxOp → PerCpuVmx → PerCpuVmx × List (VmxState × VmxState)
  | [], c => (c, [])
  | op :: ops, c =>
      let r := vmx_step op c
      let r2 := vmx_run ops r.1
      (r2.1, r.2 ++ r2.2)

/-- The boot state of a per-CPU structure: zero-initialized (state VMXOFF),
CR4 without the VMXE bit. -/
def initialPerCpuVmx : PerCpuVmx :=
  { vmx_state := VmxState.VMXOFF, cr4 := 0, vmxon_region_rev := 0, vmcs_rev := 0 }

/-! ## vmx_handle_apic_access (C7) -/

/-- Exit-qualification decoding masks for APIC-access exits (apic.h /
Intel SDM): bits 11:0 are the offset into the APIC page, bits 15:12 the
access type; type 0 is a linear read, type 1 a linear write. -/
def APIC_ACCESS_OFFET_MASK : Nat := 0xfff
def APIC_ACCESS_TYPE_MASK : Nat := 0xf000
def APIC_ACCESS_TYPE_LINEAR_READ : Nat := 0x0000
def APIC_ACCESS_TYPE_LINEAR_WRITE : Nat := 0x1000

def PAGE_ADDR_MASK : Nat := 0x000ffffffffff000

/-- Outcome of vmx_handle_apic_access: whether the access was handled (the
guest resumes), whether the APIC model (apic_mmio_access) was invoked, and
with which register number and direction. -/
structure ApicAccessResult where
  handled : Bool
  delegated : Bool
  reg : Nat
  is_write : Bool
  page_table : Nat
  deriving Repr, DecidableEq

/-- vmx_handle_apic_access: decode access type and offset from the exit
qualification, reject offsets with any of the low four bits set, then
resolve the access through the guest page tables rooted at GUEST_CR3 and
delegate to the APIC model.  `apic_inst_len` is the oracle result of
apic_mmio_access (0 means the model rejected the access). -/
def vmx_handle_apic_access (qualification guest_cr3 apic_inst_len : Nat) :
    ApicAccessResult :=
  let t := qualification &&& APIC_ACCESS_TYPE_MASK
  if t = APIC_ACCESS_TYPE_LINEAR_READ ∨ t = APIC_ACCESS_TYPE_LINEAR_WRITE then
    let is_write := qualification &&& APIC_ACCESS_TYPE_LINEAR_WRITE ≠ 0
    let offset := qualification &&& APIC_ACCESS_OFFET_MASK
    if offset &&& 0xf ≠ 0 then ⟨false, false, 0, false, 0⟩
    else
      let page_table_addr := guest_cr3 &&& PAGE_ADDR_MASK
      if apic_inst_len = 0 then
        ⟨false, true, offset >>> 4, is_write, page_table_addr⟩
      else ⟨true, true, offset >>> 4, is_write, page_table_addr⟩
  else ⟨false, false, 0, false, 0⟩

/-! ## vmx_handle_cr and the VM-exit dispatcher (C1) -/

/-- vmx_handle_cr, reduced to its decision: only access type 0 (move to
control register) targeting CR0 or CR4 is handled; everything else falls
through to the fatal dump. -/
def vmx_handle_cr_ok (qualification : Nat) : Bool :=
  let cr := qualification &&& 0xf
  if (qualification >>> 4) &&& 3 = 0 then
    if cr = 0 ∨ cr = 4 then true else false
  else false

/-- Exit reason numbers (vmx.h / Intel SDM) and the failed-VM-entry
condition bit carried in bit 31 of the exit reason. -/
def EXIT_REASON_EXCEPTION_NMI : Nat := 0
def EXIT_REASON_CPUID : Nat := 10
def EXIT_REASON_VMCALL : Nat := 18
def EXIT_REASON_CR_ACCESS : Nat := 28
def EXIT_REASON_MSR_READ : Nat := 31
def EXIT_REASON_MSR_WRITE : Nat := 32
def EXIT_REASON_APIC_ACCESS : Nat := 44
def EXIT_REASON_PREEMPTION_TIMER : Nat := 52
def EXIT_REASON_XSETBV : Nat := 55
def EXIT_REASONS_FAILED_VMENTRY : Nat := 2 ^ 31

/-- x2APIC MSR range (apic.h). -/
def MSR_X2APIC_BASE : Nat := 0x800
def MSR_X2APIC_ICR : Nat := 0x830
def MSR_X2APIC_END : Nat := 0x83f

/-- The exit-reason-specific handler reached by the dispatcher switch. -/
inductive ExitAction where
  | nmi_preempt
  | cpuid
  | vmcall
  | cr_access
  | msr_read
  | msr_write
  | apic_access
  | xsetbv
  | unknown
  deriving Repr, DecidableEq

/-- Everything vmx_handle_exit reads: the exit reason and qualification from
the VMCS, the vCPU state, and the oracle results of the collaborators the
branches invoke (apic_handle_events, vmx_cpu_reset writes, apic_mmio_access,
the real CPUID instruction, supported XCR0 bits, and the cell manager). -/
structure ExitEnv where
  reason : Nat
  qualification : Nat
  vcpu : VcpuState
  guest_cr3 : Nat
  hc : HcOracle
  sipi_vector : Int
  reset_writes_ok : Bool
  apic_inst_len : Nat
  cpuid_result : Nat × Nat × Nat × Nat
  xcr0_supported : Nat

/-- Outcome of one dispatch: whether the dispatcher fell through to
dump_and_stop (print the fatal diagnostic, dump the guest register and
segment state via dump_guest_regs, and halt the processor in panic_stop),
which reason-specific handler was entered, and the resulting vCPU state. -/
structure ExitOutcome where
  halt : Bool
  action : Option ExitAction
  vcpu : VcpuState

/-- vmx_handle_exit: check the failed-VM-entry condition bit first, then
switch on the exit reason.  Branches that the C code ends in `return`
produce halt = false; branches that `break` out of the switch fall through
to dump_and_stop (halt = true). -/
def vmx_handle_exit (env : ExitEnv) : ExitOutcome :=
  let reason := env.reason
  if reason &&& EXIT_REASONS_FAILED_VMENTRY ≠ 0 then
    ⟨true, none, env.vcpu⟩
  else if reason = EXIT_REASON_EXCEPTION_NMI ∨
          reason = EXIT_REASON_PREEMPTION_TIMER then
    -- the NMI case falls through into the preemption-timer case
    if env.sipi_vector ≥ 0 ∧ ¬env.reset_writes_ok then
      -- vmx_cpu_reset failed a VMCS write: it panics on its own
      ⟨true, some ExitAction.nmi_preempt, env.vcpu⟩
    else ⟨false, some ExitAction.nmi_preempt, env.vcpu⟩
  else if reason = EXIT_REASON_CPUID then
    let s := vmx_skip_emulated_instruction 2 env.vcpu
    let r := { s.regs with
               rax := env.cpuid_result.1,
               rbx := env.cpuid_result.2.1,
               rcx := env.cpuid_result.2.2.1,
               rdx := env.cpuid_result.2.2.2 }
    ⟨false, some ExitAction.cpuid, { s with regs := r }⟩
  else if reason = EXIT_REASON_VMCALL then
    ⟨false, some ExitAction.vmcall, vmx_handle_hypercall env.hc env.vcpu⟩
  else if reason = EXIT_REASON_CR_ACCESS then
    if vmx_handle_cr_ok env.qualification then
      ⟨false, some ExitAction.cr_access, env.vcpu⟩
    else ⟨true, some ExitAction.cr_access, env.vcpu⟩
  else if reason = EXIT_REASON_MSR_READ then
    let s := vmx_skip_emulated_instruction 2 env.vcpu
    if MSR_X2APIC_BASE ≤ s.regs.rcx ∧ s.regs.rcx ≤ MSR_X2APIC_END then
      ⟨false, some ExitAction.msr_read, s⟩
    else ⟨true, some ExitAction.msr_read, s⟩
  else if reason = EXIT_REASON_MSR_WRITE then
    let s := vmx_skip_emulated_instruction 2 env.vcpu
    if s.regs.rcx = MSR_X2APIC_ICR then
      ⟨false, some ExitAction.msr_write, s⟩
    else if MSR_X2APIC_BASE ≤ s.regs.rcx ∧ s.regs.rcx ≤ MSR_X2APIC_END then
      ⟨false, some ExitAction.msr_write, s⟩
    else ⟨true, some ExitAction.msr_write, s⟩
  else if reason = EXIT_REASON_APIC_ACCESS then
    let r := vmx_handle_apic_access env.qualification env.guest_cr3
               env.apic_inst_len
    if r.handled then
      ⟨false, some ExitAction.apic_access,
       vmx_skip_emulated_instruction env.apic_inst_len env.vcpu⟩
    else ⟨true, some ExitAction.apic_access, env.vcpu⟩
  else if reason = EXIT_REASON_XSETBV then
    let s := vmx_skip_emulated_instruction 3 env.vcpu
    if s.regs.rax &&& X86_XCR0_FP ≠ 0 ∧
       s.regs.rax &&& ((2 ^ 32 - 1) ^^^ (env.xcr0_supported % 2 ^ 32)) = 0 ∧
       s.regs.rcx = 0 ∧ s.regs.rdx = 0 then
      ⟨false, some ExitAction.xsetbv, s⟩
    else ⟨true, some ExitAction.xsetbv, s⟩
  else
    ⟨true, some ExitAction.unknown, env.vcpu⟩

/-! ## VT-d IOMMU manager (vtd.c) -/

/-- Memory-region access flags of the cell configuration descriptor
(cell-config header, missing from src; modelled from the spec flag set
read / write / execute / DMA-capable). -/
def JAILHOUSE_MEM_READ : Nat := 1
def JAILHOUSE_MEM_WRITE : Nat := 2
def JAILHOUSE_MEM_EXECUTE : Nat := 4
def JAILHOUSE_MEM_DMA : Nat := 8

/-- VT-d structure bits (vtd.h). -/
def VTD_PAGE_READ : Nat := 1
def VTD_PAGE_WRITE : Nat := 2
def VTD_ROOT_PRESENT : Nat := 1
def VTD_CTX_PRESENT : Nat := 1
def VTD_CTX_FPD : Nat := 2
def VTD_CTX_TTYPE_MLP_UNTRANS : Nat := 0
def VTD_CTX_AGAW_39 : Nat := 1
def VTD_CTX_AGAW_48 : Nat := 2
def VTD_CTX_DID_SHIFT : Nat := 8
def VTD_CAP_CM : Nat := 2 ^ 7
def VTD_CAP_SAGAW39 : Nat := 2 ^ 9
def VTD_CAP_SAGAW48 : Nat := 2 ^ 10
def VTD_CAP_NUM_DID_MASK : Nat := 7

/-- PAGE_MASK: clears the low 12 bits of a 64-bit value. -/
def PAGE_MASK : Nat := 2 ^ 64 - PAGE_SIZE

structure MemRegion where
  phys_start : Nat
  virt_start : Nat
  size : Nat
  access_flags : Nat
  deriving Repr, DecidableEq

structure PciDevice where
  domain : Nat
  bus : Nat
  devfn : Nat
  deriving Repr, DecidableEq

/-- The part of the cell configuration descriptor the IOMMU manager reads. -/
structure CellConfig where
  mem_regions : List MemRegion
  pci_devices : List PciDevice
  deriving Repr, DecidableEq

/-- A cell as seen by the IOMMU manager: numeric identity, the address of
its domain page table (cell->vtd.page_table; 0 when never allocated), and
its configuration. -/
structure VtdCell where
  id : Nat
  page_table : Nat
  config : CellConfig
  deriving Repr, DecidableEq

/-- Observable side effects of the IOMMU manager on its collaborators and
on the remapping hardware: page-pool allocation and release, page-table
walker calls, cache-line flushes of hardware-visible structures, and the
per-unit register programming sequences. -/
inductive VtdEvent where
  | pageAlloc (addr : Nat)
  | pageFree (addr : Nat)
  | mapCreate (pt phys size virt flags : Nat)
  | mapDestroy (pt phys size : Nat)
  | cacheFlush (addr : Nat)
  | regMap (unit : Nat)
  | setRootTablePtr (unit : Nat)
  | flushCaches (unit : Nat)
  | enableTranslation (unit : Nat)
  | flushDomain (unit did : Nat)
  deriving Repr, DecidableEq

/-- The global state of the IOMMU manager: the discovered-unit count, the
uniform page-table depth, the domain-id cap, the shared root-entry table
(lo word per bus number), the context-entry tables (a heap keyed by table
address, then by devfn, holding lo and hi words), an allocation cursor
handing out fresh page-aligned addresses, oracle bits for the collaborators
(allocator success, page-table-walker success, the hardware TES status
bit), and the accumulated event trace. -/
structure VtdState where
  dmar_units : Nat
  dmar_pt_levels : Nat
  dmar_num_did : Nat
  root_lo : Nat → Nat
  ctx_mem : Nat → Nat → Nat × Nat
  next_page : Nat
  alloc_ok : Bool
  map_ok : Bool
  hw_tes : Bool
  events : List VtdEvent

/-- vtd_add_device_to_cell: reuse or allocate the per-bus context-entry
table, then write the context entry of the device, pointing at the domain
page table of the cell and tagging it with the cell identity, flushing the
touched cache lines.  (The C function also logs the device; the log sink is
not state.) -/
def vtd_add_device_to_cell (s : VtdState) (cell : VtdCell) (dev : PciDevice) :
    Bool × VtdState :=
  let root_entry_lo := s.root_lo dev.bus
  let write_ctx : VtdState → Nat → VtdState := fun s ctx_addr =>
    let lo := VTD_CTX_PRESENT ||| VTD_CTX_FPD ||| VTD_CTX_TTYPE_MLP_UNTRANS |||
              cell.page_table
    let hi := (if s.dmar_pt_levels = 3 then VTD_CTX_AGAW_39 else VTD_CTX_AGAW_48) |||
              (cell.id <<< VTD_CTX_DID_SHIFT)
    { s with
      ctx_mem := fun a =>
        if a = ctx_addr then
          fun d => if d = dev.devfn then (lo, hi) else s.ctx_mem a d
        else s.ctx_mem a,
      events := s.events ++ [VtdEvent.cacheFlush (ctx_addr + dev.devfn)] }
  if root_entry_lo &&& VTD_ROOT_PRESENT ≠ 0 then
    (true, write_ctx s (root_entry_lo &&& PAGE_MASK))
  else if ¬s.alloc_ok then (false, s)
  else
    let ctx_addr := s.next_page
    let s := { s with
      next_page := s.next_page + PAGE_SIZE,
      ctx_mem := fun a => if a = ctx_addr then fun _ => (0, 0) else s.ctx_mem a,
      root_lo := fun b => if b = dev.bus then VTD_ROOT_PRESENT ||| ctx_addr
                          else s.root_lo b,
      events := s.events ++ [VtdEvent.pageAlloc ctx_addr,
                             VtdEvent.cacheFlush dev.bus] }
    (true, write_ctx s ctx_addr)

/-- vtd_remove_device_from_cell: clear the present bit of the context entry
of the device (reading the context-table address from the root entry
without checking its present bit, exactly as the C code does), and release
the whole context table once no device on the bus remains present.  The C
function receives the owning cell only for a log message. -/
def vtd_remove_device_from_cell (s : VtdState) (dev : PciDevice) : VtdState :=
  let root_entry_lo := s.root_lo dev.bus
  let ctx_addr := root_entry_lo &&& PAGE_MASK
  let entry := s.ctx_mem ctx_addr dev.devfn
  if entry.1 &&& VTD_CTX_PRESENT = 0 then s
  else
    let s := { s with
      ctx_mem := fun a =>
        if a = ctx_addr then
          fun d => if d = dev.devfn then
              (entry.1 &&& (2 ^ 64 - 1 - VTD_CTX_PRESENT), entry.2)
            else s.ctx_mem a d
        else s.ctx_mem a,
      events := s.events ++ [VtdEvent.cacheFlush (ctx_addr + dev.devfn)] }
    if (List.range 256).all
        (fun n => (s.ctx_mem ctx_addr n).1 &&& VTD_CTX_PRESENT = 0) then
      { s with
        root_lo := fun b => if b = dev.bus then
            s.root_lo b &&& (2 ^ 64 - 1 - VTD_ROOT_PRESENT)
          else s.root_lo b,
        events := s.events ++ [VtdEvent.cacheFlush dev.bus,
                               VtdEvent.pageFree ctx_addr] }
    else s

/-- vtd_flush_domain_caches: per-unit context-cache and IOTLB invalidation
scoped to one domain id. -/
def vtd_flush_domain_caches (s : VtdState) (did : Nat) : VtdState :=
  { s with events := s.events ++
      (List.range s.dmar_units).map (fun n => VtdEvent.flushDomain n did) }

/-- vtd_map_memory_region: no-op without discovered units, no-op for
regions without the DMA flag, otherwise a page-table-walker call deriving
the VT-d permission bits from the region flags. -/
def vtd_map_memory_region (s : VtdState) (cell : VtdCell) (mem : MemRegion) :
    Int × VtdState :=
  if s.dmar_units = 0 then (0, s)
  else if mem.access_flags &&& JAILHOUSE_MEM_DMA = 0 then (0, s)
  else
    let page_flags :=
      (if mem.access_flags &&& JAILHOUSE_MEM_READ ≠ 0 then VTD_PAGE_READ else 0) |||
      (if mem.access_flags &&& JAILHOUSE_MEM_WRITE ≠ 0 then VTD_PAGE_WRITE else 0)
    let s := { s with events := s.events ++
        [VtdEvent.mapCreate cell.page_table mem.phys_start mem.size
          mem.virt_start page_flags] }
    (if s.map_ok then 0 else -ENOMEM_v, s)

/-- vtd_unmap_memory_region: no-op without discovered units, otherwise a
page-table-walker teardown call for DMA-flagged regions. -/
def vtd_unmap_memory_region (s : VtdState) (cell : VtdCell) (mem : MemRegion) :
    VtdState :=
  if s.dmar_units = 0 then s
  else if mem.access_flags &&& JAILHOUSE_MEM_DMA ≠ 0 then
    { s with events := s.events ++
        [VtdEvent.mapDestroy cell.page_table mem.virt_start mem.size] }
  else s

/-- The region-mapping loop of vtd_cell_init (early exit on the first
failing vtd_map_memory_region call). -/
def vtd_map_regions (cell : VtdCell) :
    List MemRegion → VtdState → Option Int × VtdState
  | [], s => (none, s)
  | m :: ms, s =>
      let r := vtd_map_memory_region s cell m
      if r.1 = 0 then vtd_map_regions cell ms r.2 else (some r.1, r.2)

/-- The device-registration loop of vtd_cell_init (early exit on the first
failing vtd_add_device_to_cell call). -/
def vtd_add_devices (cell : VtdCell) :
    List PciDevice → VtdState → Bool × VtdState
  | [], s => (true, s)
  | d :: ds, s =>
      let r := vtd_add_device_to_cell s cell d
      if r.1 then vtd_add_devices cell ds r.2 else (false, r.2)

/-- The per-unit hardware-enable sequence run by vtd_cell_init on first
use: program the root-table pointer, flush global caches, set the
translation-enable bit. -/
def vtd_enable_events (units : Nat) : List VtdEvent :=
  (List.range units).flatMap
    (fun n => [VtdEvent.setRootTablePtr n, VtdEvent.flushCaches n,
               VtdEvent.enableTranslation n])

/-- vtd_cell_init: no-op without discovered units; -ERANGE when the cell
identity does not fit the domain-id cap; otherwise allocate the domain
page table, map every region, register every PCI device, and enable the
translation hardware if it is not yet enabled. -/
def vtd_cell_init (s : VtdState) (cell : VtdCell) :
    Int × VtdState × VtdCell :=
  if s.dmar_units = 0 then (0, s, cell)
  else if cell.id ≥ s.dmar_num_did then (-ERANGE_v, s, cell)
  else if ¬s.alloc_ok then (-ENOMEM_v, s, cell)
  else
    let pt := s.next_page
    let s := { s with
               next_page := s.next_page + PAGE_SIZE,
               events := s.events ++ [VtdEvent.pageAlloc pt] }
    let cell := { cell with page_table := pt }
    let r := vtd_map_regions cell cell.config.mem_regions s
    match r.1 with
    | some err => (err, r.2, cell)
    | none =>
      let r2 := vtd_add_devices cell cell.config.pci_devices r.2
      if ¬r2.1 then (-ENOMEM_v, r2.2, cell)
      else
        let s := r2.2
        if ¬s.hw_tes then
          (0, { s with events := s.events ++ vtd_enable_events s.dmar_units },
           cell)
        else (0, s, cell)

/-- vtd_linux_cell_shrink: tear the DMA-flagged regions of the carved-out
configuration out of the root-cell domain table, remove the listed PCI
devices, and flush the root-cell domain caches.  Note: the C code has no
dmar_units == 0 guard here. -/
def vtd_linux_cell_shrink (s : VtdState) (linux : VtdCell)
    (config : CellConfig) : VtdState :=
  let s := config.mem_regions.foldl
    (fun s m =>
      if m.access_flags &&& JAILHOUSE_MEM_DMA ≠ 0 then
        { s with events := s.events ++
            [VtdEvent.mapDestroy linux.page_table m.phys_start m.size] }
      else s) s
  let s := config.pci_devices.foldl
    (fun s d => vtd_remove_device_from_cell s d) s
  vtd_flush_domain_caches s linux.id

/-- vtd_return_device_to_linux: re-register the device into the root cell
when the root-cell configuration still lists it. -/
def vtd_return_device_to_linux (s : VtdState) (linux : VtdCell)
    (dev : PciDevice) : Bool × VtdState :=
  match linux.config.pci_devices.find?
      (fun ld => ld.domain = dev.domain ∧ ld.bus = dev.bus ∧
                 ld.devfn = dev.devfn) with
  | some ld => vtd_add_device_to_cell s linux ld
  | none => (true, s)

/-- vtd_cell_exit: remove every PCI device of the cell (returning it to the
root cell where still configured), flush both domains and free the domain
page table.  Note: the C code has no dmar_units == 0 guard here, and frees
cell->vtd.page_table unconditionally. -/
def vtd_cell_exit (s : VtdState) (cell linux : VtdCell) : VtdState :=
  let s := cell.config.pci_devices.foldl
    (fun s d =>
      let s := vtd_remove_device_from_cell s d
      (vtd_return_device_to_linux s linux d).2) s
  let s := vtd_flush_domain_caches s cell.id
  let s := vtd_flush_domain_caches s linux.id
  { s with events := s.events ++ [VtdEvent.pageFree cell.page_table] }

/-- One DMAR remapping-hardware record (ACPI DRHD) as vtd_init consumes it:
the header length / bounds checks folded into one bit, the PCI segment, the
capability register value, whether the IOTLB registers fall inside the
first page of the register block, and the status of the
translation-enabled bit. -/
structure DrhdRec where
  length_ok : Bool
  segment : Nat
  caps : Nat
  iotlb_in_page : Bool
  gsts_tes : Bool
  deriving Repr, DecidableEq

/-- The ACPI DMAR table as vtd_init consumes it. -/
structure DmarTable where
  header_len_ok : Bool
  first_type_ok : Bool
  recs : List DrhdRec
  deriving Repr, DecidableEq

/-- The DRHD walk of vtd_init.  Register blocks are mapped at consecutive
pages from the remap pool, so the contiguity check of the C code always
passes in this embedding. -/
def vtd_init_walk (s : VtdState) : List DrhdRec → Int × VtdState
  | [] => (0, s)
  | r :: rs =>
    if ¬r.length_ok then (-EIO_v, s)
    else if r.segment ≠ 0 then (-EIO_v, s)
    else if ¬s.alloc_ok then (-ENOMEM_v, s)
    else
      let s := { s with
                 next_page := s.next_page + PAGE_SIZE,
                 events := s.events ++ [VtdEvent.pageAlloc s.next_page,
                                        VtdEvent.regMap s.dmar_units] }
      let pt_levels := if r.caps &&& VTD_CAP_SAGAW39 ≠ 0 then 3
                       else if r.caps &&& VTD_CAP_SAGAW48 ≠ 0 then 4 else 0
      if pt_levels = 0 then (-EIO_v, s)
      else if s.dmar_pt_levels > 0 ∧ s.dmar_pt_levels ≠ pt_levels then
        (-EIO_v, s)
      else
        let s := { s with dmar_pt_levels := pt_levels }
        if r.caps &&& VTD_CAP_CM ≠ 0 then (-EIO_v, s)
        else if ¬r.iotlb_in_page then (-EIO_v, s)
        else if r.gsts_tes then (-EBUSY_v, s)
        else
          let num_did := 2 ^ (4 + (r.caps &&& VTD_CAP_NUM_DID_MASK) * 2)
          let s := { s with
            dmar_num_did := if num_did < s.dmar_num_did then num_did
                            else s.dmar_num_did,
            dmar_units := s.dmar_units + 1 }
          vtd_init_walk s rs

/-- vtd_init: absence of the DMAR table is reported with a console warning
and success; a present table is validated and walked record by record. -/
def vtd_init (s : VtdState) (dmar : Option DmarTable) : Int × VtdState :=
  match dmar with
  | none => (0, s)
  | some t =>
    if ¬t.header_len_ok then (-EIO_v, s)
    else if ¬t.first_type_ok then (-EIO_v, s)
    else vtd_init_walk s t.recs

/-! ## Helper lemmas on bit operations -/

theorem and_two_pow_eq_zero_iff (x i : Nat) :
    x &&& 2 ^ i = 0 ↔ x.testBit i = false := by
  constructor
  · intro h
    have h2 := congrArg (fun y => y.testBit i) h
    simpa [Nat.testBit_two_pow_self] using h2
  · intro h
    apply Nat.eq_of_testBit_eq
    intro j
    simp only [Nat.testBit_and, Nat.testBit_two_pow, Nat.zero_testBit]
    by_cases hj : i = j
    · subst hj; simp [h]
    · simp [hj]

theorem or_and_self_two_pow (x i : Nat) :
    (x ||| 2 ^ i) &&& 2 ^ i = 2 ^ i := by
  apply Nat.eq_of_testBit_eq
  intro j
  simp only [Nat.testBit_and, Nat.testBit_or]
  cases h : (2 ^ i).testBit j <;> simp [h]

/-! ## Claims about the VM-exit dispatcher and hypercall handler -/

/-- C1: on every VM exit whose exit reason carries the failed-VM-entry
condition bit, vmx_handle_exit prints the fatal diagnostic, dumps the guest
register and segment state and halts the processor, and no
exit-reason-specific handler is ever entered, whatever the remaining
exit-reason bits are. -/
theorem failed_vmentry_always_halts (env : ExitEnv)
    (h : env.reason &&& EXIT_REASONS_FAILED_VMENTRY ≠ 0) :
    vmx_handle_exit env = ⟨true, none, env.vcpu⟩ := by
  unfold vmx_handle_exit
  rw [if_pos h]

/-- A do-nothing cell-manager oracle used for concrete evaluations. -/
def hcOracle0 : HcOracle :=
  ⟨fun w => (0, w), fun _ w => (0, w), fun _ w => (0, w)⟩

/-- A concrete exit environment whose exit reason is VMCALL (18) with the
failed-VM-entry bit also set. -/
def exitEnvFailedEntry : ExitEnv :=
  { reason := 0x80000012, qualification := 0,
    vcpu := ⟨⟨0, 0, 0, 0, 0, 0⟩, 0x400000, EFER_LMA, 2, 0x10, 0, false⟩,
    guest_cr3 := 0, hc := hcOracle0, sipi_vector := -1,
    reset_writes_ok := true, apic_inst_len := 0,
    cpuid_result := (0, 0, 0, 0), xcr0_supported := 7 }

/-- Witness for C1 at a concrete exit with reason 0x80000012. -/
theorem failed_vmentry_always_halts_witness :
    (0x80000012 : Nat) &&& EXIT_REASONS_FAILED_VMENTRY ≠ 0 ∧
    vmx_handle_exit exitEnvFailedEntry = ⟨true, none, exitEnvFailedEntry.vcpu⟩ :=
  ⟨by decide, failed_vmentry_always_halts exitEnvFailedEntry (by decide)⟩

/-- C9: every hypercall exit advances the guest instruction pointer past
the VMCALL instruction exactly once, before the privilege check and before
the dispatch, so the advance also happens on a permission rejection and on
an unknown function code. -/
theorem hypercall_always_advances_rip (o : HcOracle) (s : VcpuState) :
    (vmx_handle_hypercall o s).guest_rip =
      (s.guest_rip + X86_INST_LEN_VMCALL) % 2 ^ 64 := by
  unfold vmx_handle_hypercall vmx_skip_emulated_instruction
  dsimp only
  split_ifs <;> rfl

/-- A guest-register file whose rax holds the unknown function code 7. -/
def regsUnknownCode : GuestRegs := ⟨7, 0, 0, 0, 0, 0⟩

/-- A privileged 64-bit caller (CPL 0, EFER.LMA set) about to issue
function code 7. -/
def vcpuPrivUnknown : VcpuState :=
  ⟨regsUnknownCode, 0x1000, EFER_LMA, 2, 0x10, 5, false⟩

/-- An unprivileged caller (CPL 3) about to issue function code 7. -/
def vcpuUnprivUnknown : VcpuState :=
  ⟨regsUnknownCode, 0x1000, EFER_LMA, 2, 0x33, 5, false⟩

/-- C3 counterexample: for the unknown function code 7 issued by a
privileged caller the guest instruction pointer is modified (the claim
allows no guest-state change beyond the return-value register), and for
the same code issued by an unprivileged caller the returned status is
-EPERM, not -ENOSYS. -/
theorem hypercall_unknown_counterexample :
    (vmx_handle_hypercall hcOracle0 vcpuPrivUnknown).guest_rip ≠
      vcpuPrivUnknown.guest_rip ∧
    (vmx_handle_hypercall hcOracle0 vcpuUnprivUnknown).regs.rax ≠
      u64ofInt (-ENOSYS_v) := by
  constructor
  · decide
  · decide

/-- C3 (amended): a hypercall whose caller passes the privilege check and
whose function code is none of DISABLE, CELL_CREATE, CELL_DESTROY returns
-ENOSYS in the return-value register, and the only other observable change
is the instruction pointer having been advanced past the VMCALL
instruction; the world, the remaining registers and the mode fields are
untouched. -/
theorem hypercall_unknown_enosys (o : HcOracle) (s : VcpuState)
    (hpriv : ¬((s.efer &&& EFER_LMA = 0 ∧ s.rflags &&& X86_RFLAGS_VM ≠ 0) ∨
               s.cs_selector &&& 3 ≠ 0))
    (h0 : s.regs.rax ≠ JAILHOUSE_HC_DISABLE)
    (h1 : s.regs.rax ≠ JAILHOUSE_HC_CELL_CREATE)
    (h2 : s.regs.rax ≠ JAILHOUSE_HC_CELL_DESTROY) :
    vmx_handle_hypercall o s =
      { s with guest_rip := (s.guest_rip + X86_INST_LEN_VMCALL) % 2 ^ 64,
               regs := { s.regs with rax := u64ofInt (-ENOSYS_v) } } := by
  unfold vmx_handle_hypercall vmx_skip_emulated_instruction
  simp only []
  rw [if_neg (by simpa using hpriv), if_neg (by simpa using h0),
      if_neg (by simpa using h1), if_neg (by simpa using h2)]

/-- Witness for the amended C3 at the privileged caller with code 7. -/
theorem hypercall_unknown_enosys_witness :
    vmx_handle_hypercall hcOracle0 vcpuPrivUnknown =
      { vcpuPrivUnknown with
        guest_rip := (vcpuPrivUnknown.guest_rip + X86_INST_LEN_VMCALL) % 2 ^ 64,
        regs := { regsUnknownCode with rax := u64ofInt (-ENOSYS_v) } } :=
  hypercall_unknown_enosys hcOracle0 vcpuPrivUnknown (by decide) (by decide)
    (by decide) (by decide)

/-- C8: vmx_cpu_exit is idempotent — the first call leaves the enablement
state at VMXOFF, and a second call straight after is a no-op that changes
nothing and performs no teardown action. -/
theorem vmx_cpu_exit_idempotent (c : PerCpuVmx) :
    (vmx_cpu_exit c).1.vmx_state = VmxState.VMXOFF ∧
    vmx_cpu_exit (vmx_cpu_exit c).1 = ((vmx_cpu_exit c).1, []) := by
  unfold vmx_cpu_exit
  split <;> simp_all

/-- C5: after the vmx_cell_exit bitmap restore, a port inside the compared
range (the smaller of the two configured bitmap sizes, in bytes) is
accessible to the root cell exactly when it already was before the call,
or when both the configured bitmap of the exiting cell and the configured
bitmap of the root cell mark it accessible. -/
theorem vmx_cell_exit_io_restore (linux_live cell_cfg linux_cfg : Nat → Nat)
    (cell_size linux_size port : Nat)
    (hport : port < 8 * min cell_size linux_size) :
    (ioPortAccessible
        (vmx_cell_exit_io_bitmap linux_live cell_cfg linux_cfg cell_size
          linux_size) port ↔
      ioPortAccessible linux_live port ∨
        (ioPortAccessible cell_cfg port ∧ ioPortAccessible linux_cfg port)) := by
  have hidx : port / 8 <
      (if linux_size < cell_size then linux_size else cell_size) := by
    rw [Nat.div_lt_iff_lt_mul (by norm_num : (0:Nat) < 8)]
    rcases Nat.lt_or_ge linux_size cell_size with h | h
    · rw [if_pos h]
      have hm : min cell_size linux_size = linux_size :=
        Nat.min_eq_right (Nat.le_of_lt h)
      omega
    · rw [if_neg (by omega)]
      have hm : min cell_size linux_size = cell_size := Nat.min_eq_left h
      omega
  unfold ioPortAccessible vmx_cell_exit_io_bitmap
  rw [if_pos hidx, Nat.testBit_and, Nat.testBit_or]
  cases ha : (linux_live (port / 8)).testBit (port % 8) <;>
    cases hb : (cell_cfg (port / 8)).testBit (port % 8) <;>
      cases hc : (linux_cfg (port / 8)).testBit (port % 8) <;> simp

/-- Witness for C5 at port 2 with one-byte bitmaps: root live bitmap traps
everything (0xff), both configured bitmaps leave bit 2 clear, so the port
is granted back. -/
theorem vmx_cell_exit_io_restore_witness :
    (2 : Nat) < 8 * min 1 1 ∧
    (ioPortAccessible
        (vmx_cell_exit_io_bitmap (fun _ => 0xff) (fun _ => 0xfb)
          (fun _ => 0xfb) 1 1) 2 ↔
      ioPortAccessible (fun _ => 0xff) 2 ∨
        (ioPortAccessible (fun _ => 0xfb) 2 ∧
          ioPortAccessible (fun _ => 0xfb) 2)) :=
  ⟨by decide,
   vmx_cell_exit_io_restore (fun _ => 0xff) (fun _ => 0xfb) (fun _ => 0xfb)
     1 1 2 (by decide)⟩

/-- C7 counterexample: exit qualification 4 encodes a linear read at APIC
page offset 4, which is 4-byte aligned, yet vmx_handle_apic_access rejects
it as unhandled instead of resolving and delegating it — so delegation is
not equivalent to 4-byte alignment. -/
theorem apic_access_counterexample :
    (vmx_handle_apic_access 4 0 1).handled = false ∧
    (vmx_handle_apic_access 4 0 1).delegated = false ∧
    ((4 : Nat) &&& APIC_ACCESS_OFFET_MASK) % 4 = 0 := by
  refine ⟨by decide, by decide, by decide⟩

/-- C7 (amended): for linear read/write APIC accesses, the handler resolves
and delegates exactly the offsets whose low four bits are zero (16-byte
aligned); a delegated access is handled exactly when the APIC model
accepts it, and every other offset falls through to the fatal dump. -/
theorem vmx_handle_apic_access_alignment (q cr3 len : Nat)
    (hlin : q &&& APIC_ACCESS_TYPE_MASK = APIC_ACCESS_TYPE_LINEAR_READ ∨
            q &&& APIC_ACCESS_TYPE_MASK = APIC_ACCESS_TYPE_LINEAR_WRITE) :
    ((vmx_handle_apic_access q cr3 len).delegated = true ↔
      (q &&& APIC_ACCESS_OFFET_MASK) &&& 0xf = 0) ∧
    ((vmx_handle_apic_access q cr3 len).handled = true ↔
      ((q &&& APIC_ACCESS_OFFET_MASK) &&& 0xf = 0 ∧ len ≠ 0)) := by
  unfold vmx_handle_apic_access
  rw [if_pos hlin]
  by_cases ha : (q &&& APIC_ACCESS_OFFET_MASK) &&& 0xf ≠ 0
  · rw [if_pos ha]
    simp [ha]
  · rw [if_neg ha]
    by_cases hl : len = 0
    · rw [if_pos hl]
      simp_all
    · rw [if_neg hl]
      simp_all

/-- Witness for the amended C7: a linear write at 16-byte-aligned offset
0x20 with an accepting APIC model is delegated and handled. -/
theorem vmx_handle_apic_access_alignment_witness :
    ((vmx_handle_apic_access 0x1020 0 1).delegated = true ↔
      ((0x1020 : Nat) &&& APIC_ACCESS_OFFET_MASK) &&& 0xf = 0) ∧
    ((vmx_handle_apic_access 0x1020 0 1).handled = true ↔
      (((0x1020 : Nat) &&& APIC_ACCESS_OFFET_MASK) &&& 0xf = 0 ∧ (1 : Nat) ≠ 0)) :=
  vmx_handle_apic_access_alignment 0x1020 0 1 (by decide)

/-- The disjunction of the capability checks vmx_cpu_init answers with
-EIO, in the order the code performs them (the control MSR selection
follows bit 55 of the basic capability MSR exactly as the code does). -/
def vmx_missing_cap (hw : VmxHw) : Prop :=
  let vmx_basic := hw.read_msr MSR_IA32_VMX_BASIC
  let offs := vmx_true_msr_offs hw
  let vmx_pin_ctrl := hw.read_msr (MSR_IA32_VMX_PINBASED_CTLS + offs) >>> 32
  let vmx_proc_ctrl := hw.read_msr (MSR_IA32_VMX_PROCBASED_CTLS + offs) >>> 32
  let vmx_proc_ctrl2 := hw.read_msr MSR_IA32_VMX_PROCBASED_CTLS2 >>> 32
  let ept_cap := hw.read_msr MSR_IA32_VMX_EPT_VPID_CAP
  (vmx_basic >>> 32) &&& 0x1fff > PAGE_SIZE ∨
  (vmx_basic >>> 50) &&& 0xf ≠ EPT_TYPE_WRITEBACK ∨
  vmx_pin_ctrl &&& PIN_BASED_NMI_EXITING = 0 ∨
  vmx_pin_ctrl &&& PIN_BASED_VMX_PREEMPTION_TIMER = 0 ∨
  vmx_proc_ctrl &&& CPU_BASED_USE_IO_BITMAPS = 0 ∨
  vmx_proc_ctrl &&& CPU_BASED_USE_MSR_BITMAPS = 0 ∨
  vmx_proc_ctrl &&& CPU_BASED_ACTIVATE_SECONDARY_CONTROLS = 0 ∨
  vmx_proc_ctrl2 &&& SECONDARY_EXEC_VIRTUALIZE_APIC_ACCESSES = 0 ∨
  vmx_proc_ctrl2 &&& SECONDARY_EXEC_ENABLE_EPT = 0 ∨
  ept_cap &&& EPT_MANDATORY_FEATURES ≠ EPT_MANDATORY_FEATURES ∨
  ept_cap &&& (EPT_INVEPT_SINGLE ||| EPT_INVEPT_GLOBAL) = 0 ∨
  vmx_proc_ctrl2 &&& SECONDARY_EXEC_UNRESTRICTED_GUEST = 0 ∨
  hw.read_msr MSR_IA32_VMX_MISC &&& VMX_MISC_ACTIVITY_HLT = 0

theorem vmx_cap_error_cases (hw : VmxHw) :
    vmx_cap_error hw = none ∨ vmx_cap_error hw = some (-EIO_v) := by
  unfold vmx_cap_error
  dsimp only
  split_ifs <;> simp

theorem vmx_cap_error_none_iff (hw : VmxHw) :
    vmx_cap_error hw = none ↔ ¬vmx_missing_cap hw := by
  unfold vmx_cap_error vmx_missing_cap
  dsimp only
  split_ifs with h1 h2 h3 h4 h5 h6
  · exact iff_of_false (by simp) (not_not.2 (Or.inl h1))
  · exact iff_of_false (by simp) (not_not.2 (Or.inr (Or.inl h2)))
  · exact iff_of_false (by simp)
      (not_not.2 (Or.inr (Or.inr (h3.imp id Or.inl))))
  · exact iff_of_false (by simp)
      (not_not.2 (Or.inr (Or.inr (Or.inr (Or.inr
        (h4.imp id (fun h => h.imp id Or.inl)))))))
  · exact iff_of_false (by simp)
      (not_not.2 (Or.inr (Or.inr (Or.inr (Or.inr (Or.inr (Or.inr (Or.inr
        (h5.imp id (fun h => h.imp id (fun h => h.imp id
          (fun h => h.imp id Or.inl))))))))))))
  · exact iff_of_false (by simp)
      (not_not.2 (Or.inr (Or.inr (Or.inr (Or.inr (Or.inr (Or.inr (Or.inr
        (Or.inr (Or.inr (Or.inr (Or.inr (Or.inr h6)))))))))))))
  · refine iff_of_true rfl ?_
    intro hP
    rcases hP with h | h | h | h | h | h | h | h | h | h | h | h | h
    · exact h1 h
    · exact h2 h
    · exact h3 (Or.inl h)
    · exact h3 (Or.inr h)
    · exact h4 (Or.inl h)
    · exact h4 (Or.inr (Or.inl h))
    · exact h4 (Or.inr (Or.inr h))
    · exact h5 (Or.inl h)
    · exact h5 (Or.inr (Or.inl h))
    · exact h5 (Or.inr (Or.inr (Or.inl h)))
    · exact h5 (Or.inr (Or.inr (Or.inr (Or.inl h))))
    · exact h5 (Or.inr (Or.inr (Or.inr (Or.inr h))))
    · exact h6 h

set_option maxHeartbeats 1600000 in
/-- C6: with the virtualization feature present, vmx_cpu_init returns
-EBUSY when virtualization is already active on the CPU (CR4.VMXE set);
returns -EIO when any of the required capabilities is missing (VMCS size
over a page, wrong VMCS memory type, NMI exiting, preemption timer, I/O
bitmaps, MSR bitmaps, secondary controls, APIC virtualization, EPT with
its mandatory features and an invalidation mode, unrestricted guest, or
the HLT activity state); and returns -ENODEV when the capabilities are all
present but the feature-control MSR is locked without enabling VMX outside
SMX. -/
theorem vmx_cpu_init_error_codes (hw : VmxHw) (c : PerCpuVmx) :
    (hw.cpuid_ecx1 &&& X86_FEATURE_VMX ≠ 0 → c.cr4 &&& X86_CR4_VMXE ≠ 0 →
      (vmx_cpu_init hw c).ret = -EBUSY_v) ∧
    (hw.cpuid_ecx1 &&& X86_FEATURE_VMX ≠ 0 → c.cr4 &&& X86_CR4_VMXE = 0 →
      vmx_missing_cap hw → (vmx_cpu_init hw c).ret = -EIO_v) ∧
    (hw.cpuid_ecx1 &&& X86_FEATURE_VMX ≠ 0 → c.cr4 &&& X86_CR4_VMXE = 0 →
      ¬vmx_missing_cap hw →
      hw.read_msr MSR_IA32_FEATURE_CONTROL &&& FEATURE_CONTROL_LOCKED ≠ 0 →
      hw.read_msr MSR_IA32_FEATURE_CONTROL &&&
        FEATURE_CONTROL_VMXON_ENABLED_OUTSIDE_SMX = 0 →
      (vmx_cpu_init hw c).ret = -ENODEV_v) := by
  refine ⟨?_, ?_, ?_⟩
  · intro h1 h2
    unfold vmx_cpu_init
    rw [if_neg h1, if_pos h2]
  · intro h1 h2 hmiss
    unfold vmx_cpu_init
    rw [if_neg h1, if_neg (by simp [h2])]
    rcases vmx_cap_error_cases hw with hcap | hcap
    · exact absurd hmiss ((vmx_cap_error_none_iff hw).1 hcap)
    · rw [hcap]
  · intro h1 h2 hmiss hlock hsmx
    have hmask : hw.read_msr MSR_IA32_FEATURE_CONTROL &&&
        (FEATURE_CONTROL_LOCKED ||| FEATURE_CONTROL_VMXON_ENABLED_OUTSIDE_SMX) ≠
        FEATURE_CONTROL_LOCKED ||| FEATURE_CONTROL_VMXON_ENABLED_OUTSIDE_SMX := by
      intro h
      have h4 := congrArg (fun y => y.testBit 2) h
      have hbit : (hw.read_msr MSR_IA32_FEATURE_CONTROL).testBit 2 = false :=
        (and_two_pow_eq_zero_iff _ 2).1 hsmx
      simp [Nat.testBit_and, Nat.testBit_or, hbit,
        FEATURE_CONTROL_LOCKED, FEATURE_CONTROL_VMXON_ENABLED_OUTSIDE_SMX] at h4
      exact absurd h4 (by decide)
    unfold vmx_cpu_init
    rw [if_neg h1, if_neg (by simp [h2])]
    rw [(vmx_cap_error_none_iff hw).2 hmiss]
    dsimp only
    rw [if_pos ⟨hmask, hlock⟩]

/-- An MSR file granting every capability vmx_cpu_init requires, with the
feature-control MSR locked and VMX enabled outside SMX. -/
def goodMsrFile : Nat → Nat := fun m =>
  if m = MSR_IA32_VMX_BASIC then 0x1000 * 2 ^ 32 + 6 * 2 ^ 50
  else if m = MSR_IA32_VMX_PINBASED_CTLS then
    (PIN_BASED_NMI_EXITING + PIN_BASED_VMX_PREEMPTION_TIMER) * 2 ^ 32
  else if m = MSR_IA32_VMX_PROCBASED_CTLS then
    (CPU_BASED_USE_IO_BITMAPS + CPU_BASED_USE_MSR_BITMAPS +
      CPU_BASED_ACTIVATE_SECONDARY_CONTROLS) * 2 ^ 32
  else if m = MSR_IA32_VMX_PROCBASED_CTLS2 then
    (SECONDARY_EXEC_VIRTUALIZE_APIC_ACCESSES + SECONDARY_EXEC_ENABLE_EPT +
      SECONDARY_EXEC_UNRESTRICTED_GUEST) * 2 ^ 32
  else if m = MSR_IA32_VMX_EPT_VPID_CAP then
    EPT_MANDATORY_FEATURES ||| EPT_INVEPT_SINGLE
  else if m = MSR_IA32_VMX_MISC then VMX_MISC_ACTIVITY_HLT
  else if m = MSR_IA32_FEATURE_CONTROL then
    FEATURE_CONTROL_LOCKED ||| FEATURE_CONTROL_VMXON_ENABLED_OUTSIDE_SMX
  else 0

/-- Hardware on which vmx_cpu_init fully succeeds. -/
def vmxHwGood : VmxHw := ⟨X86_FEATURE_VMX, goodMsrFile, true, true, true, true⟩

/-- Hardware lacking the HLT activity state. -/
def vmxHwNoHlt : VmxHw :=
  ⟨X86_FEATURE_VMX,
   fun m => if m = MSR_IA32_VMX_MISC then 0 else goodMsrFile m,
   true, true, true, true⟩

/-- Hardware with the feature-control MSR locked and VMX not enabled. -/
def vmxHwLocked : VmxHw :=
  ⟨X86_FEATURE_VMX,
   fun m => if m = MSR_IA32_FEATURE_CONTROL then FEATURE_CONTROL_LOCKED
            else goodMsrFile m,
   true, true, true, true⟩

/-- A per-CPU state with virtualization already active (CR4.VMXE set). -/
def cpuBusy : PerCpuVmx := { initialPerCpuVmx with cr4 := X86_CR4_VMXE }

/-- Witness for C6: -EBUSY with CR4.VMXE already set, -EIO without the HLT
activity state, -ENODEV with a locked feature-control MSR. -/
theorem vmx_cpu_init_error_codes_witness :
    (vmx_cpu_init vmxHwGood cpuBusy).ret = -EBUSY_v ∧
    (vmx_cpu_init vmxHwNoHlt initialPerCpuVmx).ret = -EIO_v ∧
    (vmx_cpu_init vmxHwLocked initialPerCpuVmx).ret = -ENODEV_v :=
  ⟨(vmx_cpu_init_error_codes vmxHwGood cpuBusy).1 (by decide) (by decide),
   (vmx_cpu_init_error_codes vmxHwNoHlt initialPerCpuVmx).2.1 (by decide)
     (by decide) (by unfold vmx_missing_cap; decide),
   (vmx_cpu_init_error_codes vmxHwLocked initialPerCpuVmx).2.2 (by decide)
     (by decide) (by unfold vmx_missing_cap; decide) (by decide) (by decide)⟩

/-! ## C2: the per-CPU enablement state machine -/

/-- The transition set claim C2 names: OFF to ON, ON to READY, READY to
OFF. -/
def claimedTransOk (t : VmxState × VmxState) : Prop :=
  t = (VmxState.VMXOFF, VmxState.VMXON) ∨
  t = (VmxState.VMXON, VmxState.VMCS_READY) ∨
  t = (VmxState.VMCS_READY, VmxState.VMXOFF)

/-- The transition set the code actually realizes: teardown also runs from
the ON state left behind by a partially failed vmx_cpu_init. -/
def amendedTransOk (t : VmxState × VmxState) : Prop :=
  t = (VmxState.VMXOFF, VmxState.VMXON) ∨
  t = (VmxState.VMXON, VmxState.VMCS_READY) ∨
  t = (VmxState.VMXON, VmxState.VMXOFF) ∨
  t = (VmxState.VMCS_READY, VmxState.VMXOFF)

/-- The coupling invariant between the enablement state and CR4.VMXE that
every reachable per-CPU state satisfies. -/
def VmxInv (c : PerCpuVmx) : Prop :=
  c.vmx_state = VmxState.VMXOFF ↔ c.cr4 &&& X86_CR4_VMXE = 0

theorem initial_vmx_inv : VmxInv initialPerCpuVmx := by
  unfold VmxInv initialPerCpuVmx
  simp

theorem or_vmxe_ne_zero (x : Nat) :
    (x ||| X86_CR4_VMXE) &&& X86_CR4_VMXE ≠ 0 := by
  intro h0
  have h1 : ((x ||| X86_CR4_VMXE) &&& X86_CR4_VMXE).testBit 13 = false := by
    rw [h0]; exact Nat.zero_testBit 13
  have hb : X86_CR4_VMXE.testBit 13 = true := by decide
  simp [Nat.testBit_and, Nat.testBit_or, hb] at h1

theorem and_clear_vmxe (x : Nat) :
    (x &&& CR4_VMXE_CLEAR) &&& X86_CR4_VMXE = 0 := by
  have h13 : CR4_VMXE_CLEAR.testBit 13 = false := by decide
  have hx : (x &&& CR4_VMXE_CLEAR).testBit 13 = false := by
    simp [Nat.testBit_and, h13]
  exact (and_two_pow_eq_zero_iff (x &&& CR4_VMXE_CLEAR) 13).2 hx

theorem vmx_cpu_init_step (hw : VmxHw) (c : PerCpuVmx) (hc : VmxInv c) :
    (∀ t ∈ (vmx_cpu_init hw c).trans, amendedTransOk t) ∧
    VmxInv (vmx_cpu_init hw c).cpu := by
  unfold vmx_cpu_init
  dsimp only
  by_cases hA : hw.cpuid_ecx1 &&& X86_FEATURE_VMX = 0
  · rw [if_pos hA]; exact ⟨by simp, hc⟩
  rw [if_neg hA]
  by_cases hB : c.cr4 &&& X86_CR4_VMXE ≠ 0
  · rw [if_pos hB]; exact ⟨by simp, hc⟩
  rw [if_neg hB]
  push_neg at hB
  have hoff : c.vmx_state = VmxState.VMXOFF := hc.2 hB
  cases hcap : vmx_cap_error hw with
  | some e => exact ⟨by simp, hc⟩
  | none =>
    dsimp only
    by_cases hF : hw.read_msr MSR_IA32_FEATURE_CONTROL &&&
        (FEATURE_CONTROL_LOCKED ||| FEATURE_CONTROL_VMXON_ENABLED_OUTSIDE_SMX) ≠
          FEATURE_CONTROL_LOCKED ||| FEATURE_CONTROL_VMXON_ENABLED_OUTSIDE_SMX ∧
        hw.read_msr MSR_IA32_FEATURE_CONTROL &&& FEATURE_CONTROL_LOCKED ≠ 0
    · rw [if_pos hF]
      exact ⟨by simp, by simpa [VmxInv, hoff] using hc⟩
    rw [if_neg hF]
    by_cases hV : ¬hw.vmxon_ok
    · rw [if_pos hV]
      exact ⟨by simp, by simpa [VmxInv, hoff] using hc⟩
    rw [if_neg hV]
    by_cases hW : ¬hw.vmcs_clear_ok ∨ ¬hw.vmcs_load_ok ∨ ¬hw.vmcs_setup_ok
    · rw [if_pos hW]
      refine ⟨?_, ?_⟩
      · intro t ht
        simp only [List.mem_singleton] at ht
        rw [ht, hoff]
        exact Or.inl rfl
      · unfold VmxInv
        dsimp only
        constructor
        · intro habs; exact absurd habs (by decide)
        · intro habs; exact absurd habs (or_vmxe_ne_zero c.cr4)
    · rw [if_neg hW]
      refine ⟨?_, ?_⟩
      · intro t ht
        simp only [List.mem_cons, List.mem_singleton, List.not_mem_nil,
          or_false] at ht
        rcases ht with ht | ht <;> rw [ht]
        · rw [hoff]; exact Or.inl rfl
        · exact Or.inr (Or.inl rfl)
      · unfold VmxInv
        dsimp only
        constructor
        · intro habs; exact absurd habs (by decide)
        · intro habs; exact absurd habs (or_vmxe_ne_zero c.cr4)

theorem vmx_step_trans (op : VmxOp) (c : PerCpuVmx) (hc : VmxInv c) :
    (∀ t ∈ (vmx_step op c).2, amendedTransOk t) ∧ VmxInv (vmx_step op c).1 := by
  cases op with
  | init hw => exact vmx_cpu_init_step hw c hc
  | exit =>
    unfold vmx_step vmx_cpu_exit
    dsimp only
    by_cases h : c.vmx_state = VmxState.VMXOFF
    · rw [if_pos h]; exact ⟨by simp, hc⟩
    · rw [if_neg h]
      refine ⟨?_, ?_⟩
      · intro t ht
        simp only [List.mem_singleton] at ht
        rw [ht]
        cases hs : c.vmx_state with
        | VMXOFF => exact absurd hs h
        | VMXON => exact Or.inr (Or.inr (Or.inl rfl))
        | VMCS_READY => exact Or.inr (Or.inr (Or.inr rfl))
      · unfold VmxInv
        dsimp only
        exact iff_of_true rfl (and_clear_vmxe c.cr4)

theorem vmx_run_trans (ops : List VmxOp) (c : PerCpuVmx) (hc : VmxInv c) :
    ∀ t ∈ (vmx_run ops c).2, amendedTransOk t := by
  induction ops generalizing c with
  | nil => simp [vmx_run]
  | cons op ops ih =>
    intro t ht
    unfold vmx_run at ht
    dsimp only at ht
    rw [List.mem_append] at ht
    rcases ht with h | h
    · exact (vmx_step_trans op c hc).1 t h
    · exact ih (vmx_step op c).1 (vmx_step_trans op c hc).2 t h

/-- Hardware on which the VMXON instruction succeeds but the subsequent
VMCS clear fails, leaving vmx_cpu_init in the VMXON state with -EIO. -/
def vmxHwClearFails : VmxHw :=
  ⟨X86_FEATURE_VMX, goodMsrFile, true, false, true, true⟩

/-- C2 counterexample: from the boot state, a vmx_cpu_init whose VMCS clear
fails followed by vmx_cpu_exit observes the transition sequence OFF to ON
then ON to OFF, and the latter is outside the transition set the claim
allows (OFF to ON, ON to READY, READY to OFF). -/
theorem vmx_state_machine_counterexample :
    (vmx_run [VmxOp.init vmxHwClearFails, VmxOp.exit] initialPerCpuVmx).2 =
      [(VmxState.VMXOFF, VmxState.VMXON), (VmxState.VMXON, VmxState.VMXOFF)] ∧
    ¬claimedTransOk (VmxState.VMXON, VmxState.VMXOFF) := by
  constructor
  · decide
  · unfold claimedTransOk
    decide

/-- C2 (amended): starting from the boot per-CPU state, every assignment of
the enablement state observed along any sequence of vmx_cpu_init and
vmx_cpu_exit calls is OFF to ON (after VMXON succeeds), ON to READY (after
clear, load and field setup all succeed), ON to OFF (teardown after a
partially failed init), or READY to OFF (teardown). -/
theorem vmx_state_machine_transitions (ops : List VmxOp)
    (t : VmxState × VmxState)
    (ht : t ∈ (vmx_run ops initialPerCpuVmx).2) : amendedTransOk t :=
  vmx_run_trans ops initialPerCpuVmx initial_vmx_inv t ht

/-- Witness for the amended C2: a fully successful vmx_cpu_init performs
the transition OFF to ON, which the theorem certifies as allowed. -/
theorem vmx_state_machine_transitions_witness :
    amendedTransOk (VmxState.VMXOFF, VmxState.VMXON) :=
  vmx_state_machine_transitions [VmxOp.init vmxHwGood]
    (VmxState.VMXOFF, VmxState.VMXON) (by decide)

/-! ## Claims about the IOMMU manager -/

/-- C10: with at least one discovered remapping unit, vtd_cell_init on a
cell whose identity reaches the domain-id cap returns -ERANGE with the
manager state and the cell untouched — before any allocation or any
root/context-entry mutation. -/
theorem vtd_cell_init_erange (s : VtdState) (cell : VtdCell)
    (hunits : s.dmar_units ≠ 0) (hid : cell.id ≥ s.dmar_num_did) :
    vtd_cell_init s cell = (-ERANGE_v, s, cell) := by
  unfold vtd_cell_init
  rw [if_neg hunits, if_pos hid]

/-- A manager state with one discovered unit and a domain-id cap of 16. -/
def vtdOneUnit : VtdState :=
  { dmar_units := 1, dmar_pt_levels := 3, dmar_num_did := 16,
    root_lo := fun _ => 0, ctx_mem := fun _ _ => (0, 0),
    next_page := 0x10000, alloc_ok := true, map_ok := true,
    hw_tes := false, events := [] }

/-- A cell whose identity 16 does not fit a domain-id cap of 16. -/
def cellIdTooBig : VtdCell :=
  { id := 16, page_table := 0, config := { mem_regions := [], pci_devices := [] } }

/-- Witness for C10 at the concrete one-unit state and identity 16. -/
theorem vtd_cell_init_erange_witness :
    vtd_cell_init vtdOneUnit cellIdTooBig = (-ERANGE_v, vtdOneUnit, cellIdTooBig) :=
  vtd_cell_init_erange vtdOneUnit cellIdTooBig (by decide) (by decide)

/-- A manager state after discovery found no DMAR table: zero units, the
domain-id cap still at its initial all-ones value. -/
def vtdNoUnits : VtdState :=
  { dmar_units := 0, dmar_pt_levels := 0, dmar_num_did := 0xffffffff,
    root_lo := fun _ => 0, ctx_mem := fun _ _ => (0, 0),
    next_page := 0x10000, alloc_ok := true, map_ok := true,
    hw_tes := false, events := [] }

/-- A cell with no PCI devices and a never-allocated domain page table. -/
def cellNoDevices : VtdCell :=
  { id := 1, page_table := 0, config := { mem_regions := [], pci_devices := [] } }

/-- The root cell as the IOMMU manager sees it. -/
def linuxVtdCell : VtdCell :=
  { id := 0, page_table := 0, config := { mem_regions := [], pci_devices := [] } }

/-- A carved-out configuration declaring one DMA-capable memory region. -/
def shrinkCfgDma : CellConfig :=
  { mem_regions := [⟨0x5000, 0x5000, 0x1000, JAILHOUSE_MEM_DMA⟩],
    pci_devices := [] }

/-- C4 counterexample: with zero discovered units, vtd_cell_exit still
frees the (never-allocated) domain page table of the exiting cell, and
vtd_linux_cell_shrink still tears a DMA region out of the (never-built)
root-cell domain table — neither call is a no-op. -/
theorem vtd_no_units_counterexample :
    (vtd_cell_exit vtdNoUnits cellNoDevices linuxVtdCell).events ≠
      vtdNoUnits.events ∧
    (vtd_linux_cell_shrink vtdNoUnits linuxVtdCell shrinkCfgDma).events ≠
      vtdNoUnits.events := by
  constructor <;> decide

/-- C4 (amended): vtd_init reports success and keeps zero units when the
DMAR table is absent, and with zero discovered units vtd_cell_init,
vtd_map_memory_region and vtd_unmap_memory_region are no-ops that change
no state and return success; vtd_linux_cell_shrink and vtd_cell_exit carry
no such guard and still perform their teardown work. -/
theorem vtd_no_units_noop (s : VtdState) (cell : VtdCell) (mem : MemRegion)
    (hunits : s.dmar_units = 0) :
    vtd_init s none = (0, s) ∧
    vtd_cell_init s cell = (0, s, cell) ∧
    vtd_map_memory_region s cell mem = (0, s) ∧
    vtd_unmap_memory_region s cell mem = s := by
  refine ⟨rfl, ?_, ?_, ?_⟩
  · unfold vtd_cell_init
    rw [if_pos hunits]
  · unfold vtd_map_memory_region
    rw [if_pos hunits]
  · unfold vtd_unmap_memory_region
    rw [if_pos hunits]

/-- Witness for the amended C4 at the concrete zero-unit state. -/
theorem vtd_no_units_noop_witness :
    vtd_init vtdNoUnits none = (0, vtdNoUnits) ∧
    vtd_cell_init vtdNoUnits cellNoDevices = (0, vtdNoUnits, cellNoDevices) ∧
    vtd_map_memory_region vtdNoUnits cellNoDevices
      ⟨0x5000, 0x5000, 0x1000, JAILHOUSE_MEM_DMA⟩ = (0, vtdNoUnits) ∧
    vtd_unmap_memory_region vtdNoUnits cellNoDevices
      ⟨0x5000, 0x5000, 0x1000, JAILHOUSE_MEM_DMA⟩ = vtdNoUnits :=
  vtd_no_units_noop vtdNoUnits cellNoDevices
    ⟨0x5000, 0x5000, 0x1000, JAILHOUSE_MEM_DMA⟩ (by decide)
